import Mathlib

/-!
Shallow embedding of the identity / notification resolver slice of the
hackatalk server (src/resolvers/user.ts), together with the external
collaborators it uses (identity store adapter, session issuer, password
hash, pub/sub hub) modelled at their interface as described by the spec.

The embedding keeps the JavaScript semantics that the resolver code
actually exercises: truthiness, strict equality, element/property access
(including access on `undefined`, which throws), and the fact that a call
whose result is not awaited yields a pending Promise object — a truthy
object with no indexable elements.
-/

namespace Hackatalk

/-- JavaScript runtime values as far as the resolver code inspects them.
`promise v` is a pending Promise object whose eventual resolution is `v`;
`pair` is a two-element array such as the `[row, created]` result of
findOrCreate; `obj` is a plain object with string keys. -/
inductive Js where
  | undef
  | null
  | bool (b : Bool)
  | str (s : String)
  | pair (fst snd : Js)
  | obj (fields : List (String × Js))
  | promise (resolved : Js)

/-- JavaScript truthiness. A Promise object is truthy regardless of its
eventual resolution; the empty string is falsy. -/
def Js.truthy : Js → Bool
  | Js.undef => false
  | Js.null => false
  | Js.bool b => b
  | Js.str s => !s.isEmpty
  | Js.pair _ _ => true
  | Js.obj _ => true
  | Js.promise _ => true

/-- Element access `v[0]`: on anything that is not a two-element array it
yields `undefined` (in particular on a pending Promise). -/
def Js.index0 : Js → Js
  | Js.pair f _ => f
  | _ => Js.undef

/-- Element access `v[1]`: on anything that is not a two-element array it
yields `undefined` (in particular on a pending Promise). -/
def Js.index1 : Js → Js
  | Js.pair _ s => s
  | _ => Js.undef

/-- JavaScript strict equality `===` restricted to the comparisons the
resolver performs (primitives; object-identity comparisons do not arise). -/
def jsStrictEq : Js → Js → Bool
  | Js.undef, Js.undef => true
  | Js.null, Js.null => true
  | Js.bool a, Js.bool b => a == b
  | Js.str a, Js.str b => a == b
  | _, _ => false

/-- Property access `v.k`. Returns `none` when the access throws a
TypeError (access on `undefined` or `null`); a missing key on an object and
any access on another primitive yield `undefined`. -/
def jsGetProp : Js → String → Option Js
  | Js.undef, _ => none
  | Js.null, _ => none
  | Js.obj fs, k => some ((fs.lookup k).getD Js.undef)
  | _, _ => some Js.undef

/-- Value stored in the `verified` column. The source writes either a
boolean or — on the social path, via `email || false` — the raw email
string; `unset` means the create call supplied no value, so the column
default of the User model (a file not part of this slice) applies. -/
inductive VerifiedVal where
  | unset
  | bool (b : Bool)
  | str (s : String)
deriving DecidableEq

/-- One persisted user row, with the attributes of the User model that the
resolver reads or writes (timestamps omitted; no claim mentions them). -/
structure Account where
  id : String
  email : Option String := none
  password : Option String := none
  name : Option String := none
  nickname : Option String := none
  photo : Option String := none
  birthday : Option String := none
  gender : Option String := none
  phone : Option String := none
  social : Option String := none
  verified : VerifiedVal := VerifiedVal.unset
deriving DecidableEq

def jsOfOptStr : Option String → Js
  | some s => Js.str s
  | none => Js.null

def jsOfVerified : VerifiedVal → Js
  | VerifiedVal.unset => Js.undef
  | VerifiedVal.bool b => Js.bool b
  | VerifiedVal.str s => Js.str s

/-- A raw row as the JavaScript object the resolver passes around and
publishes (every model attribute, password hash included). -/
def accountJs (a : Account) : Js :=
  Js.obj [("id", Js.str a.id), ("email", jsOfOptStr a.email),
    ("password", jsOfOptStr a.password), ("name", jsOfOptStr a.name),
    ("nickname", jsOfOptStr a.nickname), ("photo", jsOfOptStr a.photo),
    ("birthday", jsOfOptStr a.birthday), ("gender", jsOfOptStr a.gender),
    ("phone", jsOfOptStr a.phone), ("social", jsOfOptStr a.social),
    ("verified", jsOfVerified a.verified)]

def jsOfRow : Option Account → Js
  | some a => accountJs a
  | none => Js.null

/-- Modelled from the spec: the Identity Store Adapter state (§6), the only
holder of persisted Account records. -/
structure Store where
  rows : List Account
deriving DecidableEq

def emptyStore : Store := { rows := [] }

/-- Modelled from the spec: on creation the store generates the opaque
unique identifier (§3); any deterministic fresh id serves the embedding. -/
def freshId (s : Store) : String := "acct" ++ toString s.rows.length

/-- Modelled from the spec: `findByEmail` of the store adapter (§6). -/
def Store.findByEmail (s : Store) (email : Option String) : Option Account :=
  s.rows.find? (fun a => a.email == email)

/-- Modelled from the spec: the store query `where: \x7b email, social:
$notLike socialName% \x7d`. Following SQL semantics a NULL social column
does not satisfy NOT LIKE, so rows without a social key never match. -/
def Store.findByEmailNotSocial (s : Store) (email : Option String) (socialName : String) :
    Option Account :=
  s.rows.find? (fun a => a.email == email &&
    (match a.social with
     | some k => !(k.startsWith socialName)
     | none => false))

/-- The two `where` clauses that `isSignedIn` is invoked with: its default
email lookup, or the override spread in by `isSignedInBySocial`. -/
inductive QueryWhere where
  | byEmail (email : Option String)
  | byEmailNotSocial (email : Option String) (socialName : String)

def Store.findOne (s : Store) : QueryWhere → Option Account
  | QueryWhere.byEmail e => s.findByEmail e
  | QueryWhere.byEmailNotSocial e n => s.findByEmailNotSocial e n

/-- Modelled from the spec: `findOrCreateBySocialKey` (§6): atomically
return the row matching the social key, or insert one from the defaults,
reporting whether a row was created. -/
def Store.findOrCreate (s : Store) (key : String) (defaults : Account) :
    Account × Bool × Store :=
  match s.rows.find? (fun a => a.social == some key) with
  | some a => (a, false, s)
  | none =>
      let created := { defaults with id := freshId s }
      (created, true, { rows := s.rows ++ [created] })

/-- Modelled from the spec: `create` of the store adapter (§6). -/
def Store.create (s : Store) (row : Account) : Account × Store :=
  let created := { row with id := freshId s }
  (created, { rows := s.rows ++ [created] })

/-- Modelled from the spec: `findById` of the store adapter (§6). -/
def Store.findById (s : Store) (id : String) : Option Account :=
  s.rows.find? (fun a => a.id == id)

/-- Embedding of `isSignedIn` (src/src/resolvers/user.ts:23-41). The source
does not `await` `User.findOne`, so `emailUser` is a pending Promise
object; a Promise is truthy, hence the guard takes the true branch for
every store state. -/
def isSignedIn (store : Store) (email : Option String) (queryOptions : Option QueryWhere) :
    Bool :=
  let whereClause := queryOptions.getD (QueryWhere.byEmail email)
  let emailUser : Js := Js.promise (jsOfRow (store.findOne whereClause))
  if emailUser.truthy then true else false

/-- The social-user argument shape of the sign-in mutations. -/
structure SocialUser where
  social : String
  email : Option String := none
  name : Option String := none
  nickname : Option String := none
  photo : Option String := none
  birthday : Option String := none
  gender : Option String := none
  phone : Option String := none

/-- Embedding of `isSignedInBySocial` (src/src/resolvers/user.ts:43-59):
`isSignedIn` with the `where` clause overridden by the spread
`queryOptions`. -/
def isSignedInBySocial (store : Store) (socialUser : SocialUser) (socialName : String) :
    Bool :=
  isSignedIn store socialUser.email
    (some (QueryWhere.byEmailNotSocial socialUser.email socialName))

/-- Embedding of `hasUser` (src/src/resolvers/user.ts:19-21):
`!user || (user && user[1] === false)`. On a pending Promise this is
false: the Promise is truthy and `promise[1]` is `undefined`, which is not
strictly equal to `false`. -/
def hasUser (user : Js) : Bool :=
  !user.truthy || (user.truthy && jsStrictEq user.index1 (Js.bool false))

/-- The `defaults` object literal of the `findOrCreate` call inside
`getOrSignUp` (src/src/resolvers/user.ts:80-90). `verified` is the JS
expression `email || false`: the email string itself when truthy
(non-empty), otherwise the boolean false. -/
def getOrSignUpDefaults (socialUser : SocialUser) (socialName : String) : Account :=
  { id := ""
    social := some (socialName ++ "_" ++ socialUser.social)
    email := socialUser.email
    name := socialUser.name
    nickname := socialUser.nickname
    photo := socialUser.photo
    birthday := socialUser.birthday
    gender := socialUser.gender
    phone := socialUser.phone
    verified :=
      match socialUser.email with
      | some e => if e.isEmpty then VerifiedVal.bool false else VerifiedVal.str e
      | none => VerifiedVal.bool false }

/-- Embedding of `getOrSignUp` (src/src/resolvers/user.ts:61-99). The
source does not `await` `User.findOrCreate`: the store still executes the
query (so a missing row is created), but `foundUser` is a pending Promise,
`hasUser` of a Promise is false, and the function returns `null`. -/
def getOrSignUp (store : Store) (socialUser : SocialUser) (socialName : String) :
    Js × Store :=
  let key := socialName ++ "_" ++ socialUser.social
  let (row, created, store2) := store.findOrCreate key (getOrSignUpDefaults socialUser socialName)
  let foundUser : Js := Js.promise (Js.pair (accountJs row) (Js.bool created))
  if hasUser foundUser then (foundUser.index0, store2) else (Js.null, store2)

/-- Modelled from the spec: the Session Issuer (§4.3), `jwt.sign` of the
payload with userId and role under the app secret; a signed token is a
non-empty opaque string binding those fields. -/
def jwtSign (userId : String) (role : String) (appSecret : String) : String :=
  "jwt." ++ userId ++ "." ++ role ++ "." ++ appSecret

def roleUser : String := "user"

def jsAsTokenSubject : Js → String
  | Js.str s => s
  | _ => ""

/-- Embedding of `signIn` (src/src/resolvers/user.ts:101-106). -/
def signInToken (userId : Js) (appSecret : String) : String :=
  jwtSign (jsAsTokenSubject userId) roleUser appSecret

/-- The error outcomes of the resolver slice, named after the spec taxonomy
(§7); the source throws Error / AuthenticationError with fixed messages at
exactly these sites. -/
inductive Err where
  | alreadySignedUp
  | emailAlreadyClaimed
  | signUpFailed
  | forbidden
deriving DecidableEq

/-- The value a successful sign-in / sign-up mutation resolves to. -/
structure AuthPayload where
  token : String
  user : Js

/-- One published pub/sub event. -/
structure Event where
  topic : String
  payload : Js

def USER_ADDED : String := "USER_ADDED"

def USER_UPDATED : String := "USER_UPDATED"

/-- Provider-generic social sign-in: the common body of `signInGoogle` and
`signInFacebook` with the provider name abstracted; stated to settle the
equivalence claim between the two mutations. -/
def signInSocial (socialName : String) (appSecret : String) (store : Store)
    (socialUser : SocialUser) : Except Err AuthPayload × Store :=
  if (jsOfOptStr socialUser.email).truthy &&
      isSignedInBySocial store socialUser socialName then
    (Except.error Err.emailAlreadyClaimed, store)
  else
    let (user, store2) := getOrSignUp store socialUser socialName
    if !user.truthy then
      (Except.error Err.signUpFailed, store2)
    else
      let userId := (jsGetProp user "id").getD Js.undef
      let token := signInToken userId appSecret
      (Except.ok { token := token, user := user }, store2)

/-- Embedding of the `signInGoogle` mutation (src/src/resolvers/user.ts:
118-153): when the social profile carries a (truthy) email, a positive
`isSignedInBySocial` aborts the request; otherwise `getOrSignUp` resolves
the account, a falsy result aborts with the sign-up failure, and otherwise
a token is issued for the resolved id. -/
def signInGoogle (appSecret : String) (store : Store) (socialUser : SocialUser) :
    Except Err AuthPayload × Store :=
  if (jsOfOptStr socialUser.email).truthy &&
      isSignedInBySocial store socialUser "google" then
    (Except.error Err.emailAlreadyClaimed, store)
  else
    let (user, store2) := getOrSignUp store socialUser "google"
    if !user.truthy then
      (Except.error Err.signUpFailed, store2)
    else
      let userId := (jsGetProp user "id").getD Js.undef
      let token := signInToken userId appSecret
      (Except.ok { token := token, user := user }, store2)

/-- Embedding of the `signInFacebook` mutation (src/src/resolvers/user.ts:
154-189): textually the body of `signInGoogle` with the provider constant
`SOCIAL_NAME.FACEBOOK`. -/
def signInFacebook (appSecret : String) (store : Store) (socialUser : SocialUser) :
    Except Err AuthPayload × Store :=
  if (jsOfOptStr socialUser.email).truthy &&
      isSignedInBySocial store socialUser "facebook" then
    (Except.error Err.emailAlreadyClaimed, store)
  else
    let (user, store2) := getOrSignUp store socialUser "facebook"
    if !user.truthy then
      (Except.error Err.signUpFailed, store2)
    else
      let userId := (jsGetProp user "id").getD Js.undef
      let token := signInToken userId appSecret
      (Except.ok { token := token, user := user }, store2)

/-- Modelled from the spec: the Credential Verifier hash (§4.1), an opaque
one-way transform; a deterministic injective stand-in suffices for the
embedding. -/
def encryptPassword (password : String) : String :=
  "hash." ++ password

/-- The `user` argument shape of the `signUp` mutation: email, password and
the optional profile fields (§6 fixed argument shape). -/
structure SignUpUser where
  password : String
  email : Option String := none
  name : Option String := none
  nickname : Option String := none
  photo : Option String := none
  birthday : Option String := none
  gender : Option String := none
  phone : Option String := none

/-- The `userToCreate` object of `signUp` (src/src/resolvers/user.ts:
207-210): the input spread with the password replaced by its hash. The
create call supplies no `verified` value. -/
def signUpUserToCreate (user : SignUpUser) (encryptedPassword : String) : Account :=
  { id := ""
    email := user.email
    password := some encryptedPassword
    name := user.name
    nickname := user.nickname
    photo := user.photo
    birthday := user.birthday
    gender := user.gender
    phone := user.phone
    social := none
    verified := VerifiedVal.unset }

/-- The creation half of the `signUp` mutation (src/src/resolvers/user.ts:
206-224), reached when the guard does not abort: hash the password, create
the row, sign a token for the new id, publish the created row under the
USER_ADDED topic, and resolve with the token and the row. -/
def signUpCreate (appSecret : String) (store : Store) (pubsub : List Event)
    (user : SignUpUser) : Except Err AuthPayload × Store × List Event :=
  let encryptedPassword := encryptPassword user.password
  let userToCreate := signUpUserToCreate user encryptedPassword
  let (createdUser, store2) := store.create userToCreate
  let token := jwtSign createdUser.id roleUser appSecret
  let pubsub2 := pubsub ++
    [{ topic := USER_ADDED, payload := Js.obj [("userAdded", accountJs createdUser)] }]
  (Except.ok { token := token, user := accountJs createdUser }, store2, pubsub2)

/-- Embedding of the `signUp` mutation (src/src/resolvers/user.ts:190-225):
abort with the already-signed-in conflict when `isSignedIn` holds (which,
with the missing `await` in `isSignedIn`, is every request), otherwise run
the creation half. -/
def signUp (appSecret : String) (store : Store) (pubsub : List Event)
    (user : SignUpUser) : Except Err AuthPayload × Store × List Event :=
  if isSignedIn store user.email none then
    (Except.error Err.alreadySignedUp, store, pubsub)
  else
    signUpCreate appSecret store pubsub user

/-- The `args.user` argument shape of the `updateProfile` mutation: the
target id plus the optional profile patch fields. -/
structure UserPatch where
  id : String
  email : Option String := none
  name : Option String := none
  nickname : Option String := none
  photo : Option String := none
  birthday : Option String := none
  gender : Option String := none
  phone : Option String := none

/-- The whole `args` object of the `updateProfile` mutation: the patch is
nested under the single key `user`. -/
structure UpdateArgs where
  user : UserPatch

def optField (k : String) : Option String → List (String × Js)
  | some v => [(k, Js.str v)]
  | none => []

/-- `args.user` as the JavaScript object the transport layer delivers
(absent optional fields are absent keys). -/
def patchJs (p : UserPatch) : Js :=
  Js.obj ([("id", Js.str p.id)] ++ optField "email" p.email ++ optField "name" p.name ++
    optField "nickname" p.nickname ++ optField "photo" p.photo ++
    optField "birthday" p.birthday ++ optField "gender" p.gender ++
    optField "phone" p.phone)

/-- The own enumerable keys of the `args` object itself — the value that
`updateProfile` passes to `User.update`: a single key `user` holding the
nested patch. -/
def argsFields (args : UpdateArgs) : List (String × Js) :=
  [("user", patchJs args.user)]

/-- Modelled from the spec: the attribute names of the User model (§3 data
model); the model definition file itself is not part of this slice. -/
def userModelAttrs : List String :=
  ["id", "email", "password", "name", "nickname", "photo", "birthday",
   "gender", "phone", "social", "verified"]

def jsToOptStr : Js → Option String
  | Js.str s => some s
  | _ => none

def jsToVerified : Js → VerifiedVal
  | Js.bool b => VerifiedVal.bool b
  | Js.str s => VerifiedVal.str s
  | _ => VerifiedVal.unset

/-- Set one model attribute of a row from a JS value (the per-column effect
of the store adapter's update). -/
def Account.setAttr (a : Account) (k : String) (v : Js) : Account :=
  if k = "id" then { a with id := (jsToOptStr v).getD a.id }
  else if k = "email" then { a with email := jsToOptStr v }
  else if k = "password" then { a with password := jsToOptStr v }
  else if k = "name" then { a with name := jsToOptStr v }
  else if k = "nickname" then { a with nickname := jsToOptStr v }
  else if k = "photo" then { a with photo := jsToOptStr v }
  else if k = "birthday" then { a with birthday := jsToOptStr v }
  else if k = "gender" then { a with gender := jsToOptStr v }
  else if k = "phone" then { a with phone := jsToOptStr v }
  else if k = "social" then { a with social := jsToOptStr v }
  else if k = "verified" then { a with verified := jsToVerified v }
  else a

/-- Modelled from the spec: the store adapter's `update(id, patch)` (§6)
with Sequelize value handling: of the supplied values, exactly the keys
that are attributes of the model are applied to the matching rows; other
keys are ignored. -/
def applyValues (a : Account) (values : List (String × Js)) : Account :=
  values.foldl
    (fun acc kv => if userModelAttrs.contains kv.1 then acc.setAttr kv.1 kv.2 else acc) a

def Store.updateWhere (s : Store) (id : String) (values : List (String × Js)) : Store :=
  { rows := s.rows.map (fun a => if a.id = id then applyValues a values else a) }

/-- Embedding of the `updateProfile` mutation (src/src/resolvers/user.ts:
226-256). The requester (`auth`, resolved by the external getUser
collaborator) must be the target; the store update receives the whole
`args` object as its values (the source passes `args`, not `args.user`);
the row is re-read and published under the USER_UPDATED topic with payload
key `user`. The source does not await the update call; its effect is
modelled as applied before the re-read (the supplied values contain no
model attribute, so either ordering yields the same store). -/
def updateProfile (store : Store) (pubsub : List Event) (auth : Account)
    (args : UpdateArgs) : Except Err Js × Store × List Event :=
  if auth.id = args.user.id then
    let store2 := store.updateWhere args.user.id (argsFields args)
    let user := store2.findById args.user.id
    let pubsub2 := pubsub ++
      [{ topic := USER_UPDATED, payload := Js.obj [("user", jsOfRow user)] }]
    (Except.ok (jsOfRow user), store2, pubsub2)
  else
    (Except.error Err.forbidden, store, pubsub)

/-- Modelled from the spec: the Event Broadcaster (§4.5). `asyncIterator`
over a topic yields, in publish order, the payload of every event
published to that topic while the subscriber is registered. -/
def pubsubTopicStream (topic : String) (published : List Event) : List Js :=
  (published.filter (fun e => e.topic == topic)).map (fun e => e.payload)

/-- Embedding of the `userAdded` subscription (src/src/resolvers/user.ts:
259-261): the bare asyncIterator of the USER_ADDED topic, with no filter
and no use of the subscriber's variables. -/
def userAddedStream (published : List Event) : List Js :=
  pubsubTopicStream USER_ADDED published

/-- Embedding of the withFilter predicate of the `userUpdated` subscription
(src/src/resolvers/user.ts:265-267): the JS expression
`payload.userUpdated.id === variables.id`; `none` models the expression
throwing (property access on `undefined`). -/
def userUpdatedFilter (payload : Js) (variablesId : String) : Option Bool :=
  match jsGetProp payload "userUpdated" with
  | none => none
  | some u =>
      match jsGetProp u "id" with
      | none => none
      | some idv => some (jsStrictEq idv (Js.str variablesId))

/-- Embedding of the `userUpdated` subscription (src/src/resolvers/user.ts:
262-269): the USER_UPDATED iterator filtered by `userUpdatedFilter`. A
throwing predicate terminates the real iterator with an error; the
embedding keeps the stream and drops the payload — under either reading
the payload is not delivered to the subscriber. -/
def userUpdatedStream (published : List Event) (variablesId : String) : List Js :=
  (pubsubTopicStream USER_UPDATED published).filter
    (fun p => (userUpdatedFilter p variablesId).getD false)

/-- Fixture: a locally created account holding the email a@x.com (no social
key). -/
def localAcct : Account :=
  { id := "acct0", email := some "a@x.com", password := some "hash.p0" }

/-- Fixture: a store holding exactly the local account. -/
def storeWithLocal : Store := { rows := [localAcct] }

/-- Fixture: a social profile with native id g1 carrying the email
a@x.com. -/
def suG1 : SocialUser := { social := "g1", email := some "a@x.com" }

/-- Fixture: a social profile with native id g1 and no email. -/
def suG1NoEmail : SocialUser := { social := "g1" }

/-- Fixture: the account u1 with name Old. -/
def acctU1 : Account := { id := "u1", name := some "Old" }

/-- Fixture: a store holding exactly u1. -/
def storeU1 : Store := { rows := [acctU1] }

/-- Fixture: a second identity u2, distinct from u1. -/
def acctU2 : Account := { id := "u2" }

/-- Fixture: an updateProfile argument targeting u1 with the patch name :=
New. -/
def argsU1 : UpdateArgs := { user := { id := "u1", name := some "New" } }

/-- Fixture: a local sign-up input with email a@x.com and password p. -/
def signUpP : SignUpUser := { password := "p", email := some "a@x.com" }

/-- C1: the claim says a local sign-up with a fresh email succeeds. The
code rejects every sign-up, fresh email included: `isSignedIn` does not
await its `findOne`, the pending Promise is truthy, so the guard fires for
every store state and `signUp` always fails with the AlreadySignedUp
conflict, touching neither the store nor the pub/sub log. -/
theorem C1_signup_always_rejected (appSecret : String) (store : Store)
    (pubsub : List Event) (user : SignUpUser) :
    signUp appSecret store pubsub user =
      (Except.error Err.alreadySignedUp, store, pubsub) := rfl

/-- C2: the claim says a first social sign-in creates the account keyed
`google_g1` and returns it. The code does create the row (the store
executes the findOrCreate query), but the resolver fails with SignUpFailed:
the findOrCreate result is an unawaited Promise, and `hasUser` of a
Promise is false. -/
theorem C2_first_social_signin_rejected :
    (signInGoogle "secret" emptyStore suG1NoEmail).1 = Except.error Err.signUpFailed ∧
    ((signInGoogle "secret" emptyStore suG1NoEmail).2).rows.map Account.social =
      [some "google_g1"] :=
  ⟨rfl, rfl⟩

/-- C3: a social sign-in whose profile carries a non-empty email that an
existing local account (no social key) owns fails with EmailAlreadyClaimed,
for every store state — hence regardless of the order in which the local
and social requests arrived — on both provider mutations. -/
theorem C3_social_email_claimed (appSecret : String) (store : Store) (su : SocialUser)
    (e : String) (he : su.email = some e) (hne : e ≠ "") (a : Account)
    (hmem : a ∈ store.rows) (hemail : a.email = some e) (hlocal : a.social = none) :
    (signInGoogle appSecret store su).1 = Except.error Err.emailAlreadyClaimed ∧
    (signInFacebook appSecret store su).1 = Except.error Err.emailAlreadyClaimed := by
  have hs : jsOfOptStr su.email = Js.str e := by
    simp [he, jsOfOptStr]
  have hie : e.isEmpty = false := by
    cases hb : e.isEmpty
    · rfl
    · exact absurd ((String.isEmpty_iff e).mp hb) hne
  constructor
  · simp [signInGoogle, isSignedInBySocial, isSignedIn, Js.truthy, hs, hie]
  · simp [signInFacebook, isSignedInBySocial, isSignedIn, Js.truthy, hs, hie]

/-- Witness for C3 at the concrete store holding the local account for
a@x.com and the social profile g1 carrying that email. -/
theorem C3_witness :
    (signInGoogle "secret" storeWithLocal suG1).1 = Except.error Err.emailAlreadyClaimed ∧
    (signInFacebook "secret" storeWithLocal suG1).1 = Except.error Err.emailAlreadyClaimed :=
  C3_social_email_claimed "secret" storeWithLocal suG1 "a@x.com" rfl (by decide)
    localAcct (by simp [storeWithLocal]) rfl rfl

/-- C4: the claim says a subscriber on the account-updated topic filtered
on u1 receives exactly the published updates to u1. In the code the update
to u1 is published under payload key `user`, while the subscription filter
reads `payload.userUpdated.id`; the access yields no match (it throws on
`undefined` in JS), so the subscriber's stream is empty even though an
update event for u1 was published. -/
theorem C4_update_event_not_delivered :
    userUpdatedStream (updateProfile storeU1 [] acctU1 argsU1).2.2 "u1" = [] ∧
    (updateProfile storeU1 [] acctU1 argsU1).2.2.map Event.topic = [USER_UPDATED] ∧
    (updateProfile storeU1 [] acctU1 argsU1).2.2.map
        (fun e => jsGetProp e.payload "user") = [some (accountJs acctU1)] :=
  ⟨rfl, rfl, rfl⟩

/-- C5: the claim says an owner's profile update applies the patch and the
returned account shows the new values. The code passes the whole `args`
object (whose only key is `user`) as the update values, so no model
attribute changes: with patch name := New, the returned account and the
store still carry name = Old. -/
theorem C5_patch_not_applied :
    (updateProfile storeU1 [] acctU1 argsU1).1 = Except.ok (accountJs acctU1) ∧
    (updateProfile storeU1 [] acctU1 argsU1).2.1 = storeU1 ∧
    acctU1.name = some "Old" ∧ argsU1.user.name = some "New" :=
  ⟨rfl, rfl, rfl, rfl⟩

/-- C6: a profile update whose requester differs from the target id fails
with Forbidden and leaves both the store and the pub/sub log exactly as
they were. -/
theorem C6_forbidden_leaves_state (store : Store) (pubsub : List Event)
    (auth : Account) (args : UpdateArgs) (h : auth.id ≠ args.user.id) :
    updateProfile store pubsub auth args =
      (Except.error Err.forbidden, store, pubsub) := by
  simp [updateProfile, h]

/-- Witness for C6: requester u2 attempting to update u1. -/
theorem C6_witness :
    updateProfile storeU1 [] acctU2 argsU1 =
      (Except.error Err.forbidden, storeU1, []) :=
  C6_forbidden_leaves_state storeU1 [] acctU2 argsU1 (by decide)

/-- C7 counterexample: the payload published by the sign-up creation step
carries the password hash under userAdded.password — it is not excluded. -/
theorem C7_counterexample :
    ((signUpCreate "secret" emptyStore [] signUpP).2.2.map
        (fun e => (jsGetProp e.payload "userAdded").bind
          (fun r => jsGetProp r "password"))) = [some (Js.str "hash.p")] ∧
    Js.str "hash.p" ≠ Js.undef :=
  ⟨rfl, fun h => Js.noConfusion h⟩

/-- C7 amended: the account-created payload published by the sign-up
creation step includes the created row verbatim, password hash included:
for every input its userAdded.password field is exactly the hash of the
submitted password (so two runs identical except for the password publish
payloads differing precisely there). -/
theorem C7_amended_payload_carries_hash (appSecret : String) (store : Store)
    (user : SignUpUser) :
    ((signUpCreate appSecret store [] user).2.2.map
        (fun e => (jsGetProp e.payload "userAdded").bind
          (fun r => jsGetProp r "password"))) =
      [some (Js.str (encryptPassword user.password))] := rfl

/-- C8 counterexample: the social find-or-create path with email a@x.com
creates an account whose verified value is the email string itself
(`email || false`), not the boolean true. -/
theorem C8_counterexample :
    ((getOrSignUp emptyStore suG1 "google").2).rows.map Account.verified =
      [VerifiedVal.str "a@x.com"] ∧
    VerifiedVal.str "a@x.com" ≠ VerifiedVal.bool true :=
  ⟨rfl, fun h => VerifiedVal.noConfusion h⟩

/-- C8 amended: a social find-or-create creation stores as verified the
email string when a non-empty email is present and the boolean false
otherwise, while the local sign-up path supplies no verified value at all
(the column default applies). -/
theorem C8_amended_verified_values (store : Store) (su : SocialUser)
    (socialName : String)
    (h : store.rows.find?
      (fun a => a.social == some (socialName ++ "_" ++ su.social)) = none) :
    ((getOrSignUp store su socialName).2).rows.map Account.verified =
      store.rows.map Account.verified ++
        [match su.email with
         | some e => if e.isEmpty then VerifiedVal.bool false else VerifiedVal.str e
         | none => VerifiedVal.bool false] ∧
    ∀ (u : SignUpUser) (hp : String),
      (signUpUserToCreate u hp).verified = VerifiedVal.unset := by
  constructor
  · simp only [getOrSignUp, Store.findOrCreate, h]
    simp [hasUser, Js.truthy, Js.index1, jsStrictEq, getOrSignUpDefaults]
  · intro u hp
    rfl

/-- Witness for C8 amended at the empty store and the g1 profile carrying
the email a@x.com. -/
theorem C8_witness :
    ((getOrSignUp emptyStore suG1 "google").2).rows.map Account.verified =
      emptyStore.rows.map Account.verified ++ [VerifiedVal.str "a@x.com"] ∧
    ∀ (u : SignUpUser) (hp : String),
      (signUpUserToCreate u hp).verified = VerifiedVal.unset :=
  C8_amended_verified_values emptyStore suG1 "google" rfl

/-- C9: the userAdded subscription applies no per-subscriber predicate: for
every publish log, the subscriber's stream is exactly the payload of every
event published to the USER_ADDED topic, in publish order, whatever those
payloads are. -/
theorem C9_user_added_unfiltered (published : List Event) :
    userAddedStream published =
      published.filterMap
        (fun e => if e.topic = USER_ADDED then some e.payload else none) := by
  induction published with
  | nil => rfl
  | cons e rest ih =>
      simp only [userAddedStream, pubsubTopicStream] at ih ⊢
      by_cases h : e.topic = USER_ADDED
      · simp [List.filter_cons, List.filterMap_cons, h, ih]
      · simp [List.filter_cons, List.filterMap_cons, h, ih]

/-- C10: signInGoogle and signInFacebook agree with the provider-generic
sign-in at their respective provider names on every input — they differ
only in the provider prefix of the social key. -/
theorem C10_google_facebook_agree (appSecret : String) (store : Store)
    (su : SocialUser) :
    signInGoogle appSecret store su = signInSocial "google" appSecret store su ∧
    signInFacebook appSecret store su = signInSocial "facebook" appSecret store su :=
  ⟨rfl, rfl⟩

end Hackatalk
